import Mathlib

/-!
Verification of the yabridge cross-process bridge core against its
specification. The development shallowly embeds the data model and the
operations of `src/plugin/bridges/vst3.h`, `src/common/serialization/clap/host.h`
and `src/wine-host/editor.h`. The headers under `src/` declare most
operations but their bodies live in translation units that are not part of
the source tree given here; such bodies are modelled from the spec and are
marked `Modelled from the spec:` in their doc comments. The inline
`clap::host::Host::serialize` body is embedded directly from the source.
-/

/-! ## Proxy registry (`Vst3PluginBridge`, `plugin_proxies_`) -/

/-- A `Vst3PluginProxyImpl` as seen by the registry: its unique instance id
(assigned by the Wine plugin host) and the host context reference captured at
`initialize()`. Capabilities and the rest of the object are irrelevant to the
registry and elided. -/
structure Vst3PluginProxy where
  instance_id : Nat
  host_context : Nat
  deriving DecidableEq

/-- The shared-lock guard on `plugin_proxies_mutex_` that `get_proxy` returns
alongside the proxy reference. In this sequential embedding the guard carries
no data; it marks that the pair `(proxy, guard)` is what the lookup yields. -/
structure SharedLock where
  deriving DecidableEq

/-- The registry state: the `plugin_proxies_` unordered map from instance id
to proxy object, embedded as an association list (first binding wins). -/
abbrev ProxyRegistry := List (Nat × Vst3PluginProxy)

/-- Lookup in the underlying map: the first binding for `instance_id`,
if any. -/
def lookup_id (proxies : ProxyRegistry) (instance_id : Nat) :
    Option Vst3PluginProxy :=
  match proxies with
  | [] => none
  | (k, p) :: rest =>
    if k = instance_id then some p else lookup_id rest instance_id

/-- Modelled from the spec: the body of `Vst3PluginBridge::get_proxy` is in
`vst3.cpp`, which is not under `src/`; the spec states
`lookup(id) -> optional(proxy-ref, shared-lock-guard)`: shared lock, returns
empty if unknown. (The header declares the lookup together with the shared
lock guard on `plugin_proxies_mutex_`.) -/
def get_proxy (proxies : ProxyRegistry) (instance_id : Nat) :
    Option (Vst3PluginProxy × SharedLock) :=
  (lookup_id proxies instance_id).map (fun p => (p, ⟨⟩))

/-- Modelled from the spec: the body of
`Vst3PluginBridge::register_plugin_proxy` is in `vst3.cpp`, which is not
under `src/`; the spec states `register(proxy)` inserts under
`proxy.instanceId`, the caller guaranteeing id uniqueness (exclusive lock).
The dedicated audio-processor socket setup it also performs is outside the
registry state and elided. -/
def register_plugin_proxy (proxies : ProxyRegistry)
    (proxy_object : Vst3PluginProxy) : ProxyRegistry :=
  (proxy_object.instance_id, proxy_object) :: proxies

/-- Modelled from the spec: the body of
`Vst3PluginBridge::unregister_plugin_proxy` is in `vst3.cpp`, which is not
under `src/`; the spec states `unregister(proxy)` removes the entry with the
proxy's id (exclusive lock). -/
def unregister_plugin_proxy (proxies : ProxyRegistry)
    (proxy_object : Vst3PluginProxy) : ProxyRegistry :=
  proxies.filter (fun e => !(e.1 == proxy_object.instance_id))

/-- Modelled from the spec: the host-callback dispatch loop
(`host_callback_handler_`'s body, in `vst3.cpp`, not under `src/`) routes a
companion-originated call to the registered proxy; a stray callback naming an
unknown instance id is logged and answered with a benign default response,
never an error. -/
def handle_host_callback (proxies : ProxyRegistry) (instance_id : Nat)
    (handler : Vst3PluginProxy → Nat) (default_response : Nat) : Nat :=
  match get_proxy proxies instance_id with
  | some pr => handler pr.1
  | none => default_response

/-- After filtering out every binding for `instance_id`, the lookup of
`instance_id` is empty. -/
theorem lookup_id_filter_out (proxies : ProxyRegistry) (instance_id : Nat) :
    lookup_id (proxies.filter (fun e => !(e.1 == instance_id)))
      instance_id = none := by
  induction proxies with
  | nil => rfl
  | cons e rest ih =>
    obtain ⟨k, p⟩ := e
    by_cases hk : k = instance_id
    · simpa [List.filter_cons, hk] using ih
    · simpa [List.filter_cons, hk, lookup_id] using ih

/-! ## Editor (`Editor` in `src/wine-host/editor.h`) -/

/-- The `VstRect` passed to `Editor::resize` (vestige's rectangle with the
plugin's position). Its contents do not influence whether resizing is
attempted, only where the window ends up. -/
structure VstRect where
  top : Int
  left : Int
  bottom : Int
  right : Int
  deriving DecidableEq

/-- The `Editor` state observable through its interface: the registered
window class and `win32_handle`, the optional pointer to the currently active
window (`std::nullopt` when no window is active). The X11 connection only
matters for the embedding side effect and is elided. -/
structure Editor where
  window_class : Nat
  win32_handle : Option Nat
  deriving DecidableEq

/-- Modelled from the spec: the body of `Editor::open` is in `editor.cpp`,
which is not under `src/`; the header documents that it opens a window and
returns a handle to the new Win32 window, and `win32_handle` points to the
currently active window. (Named `open_window` because `open` is reserved in
Lean.) -/
def Editor.open_window (e : Editor) (new_hwnd : Nat) : Editor × Nat :=
  ({ e with win32_handle := some new_hwnd }, new_hwnd)

/-- Modelled from the spec: the body of `Editor::close` is in `editor.cpp`,
which is not under `src/`; closing destroys the active window, leaving
`win32_handle` empty. -/
def Editor.close (e : Editor) : Editor :=
  { e with win32_handle := none }

/-- Modelled from the spec: the body of `Editor::resize` is in `editor.cpp`,
which is not under `src/`; the header documents that it resizes the window to
match the given size if open, and returns false if the editor is not open.
`move_window_ok` stands for the result of the underlying Win32 move/resize
call on the open window. -/
def Editor.resize (e : Editor) (new_size : VstRect)
    (move_window_ok : Bool) : Bool :=
  match e.win32_handle, new_size with
  | some _, _ => move_window_ok
  | none, _ => false

/-- Modelled from the spec: the body of `Editor::embed_into` is in
`editor.cpp`, which is not under `src/`; the header documents that it embeds
the open window into the parent window given by the host and returns false if
the window is not open. `reparent_ok` stands for the result of the underlying
X11 reparent request. -/
def Editor.embed_into (e : Editor) (parent_window_handle : Nat)
    (reparent_ok : Bool) : Bool :=
  match e.win32_handle with
  | some _ => reparent_ok && (parent_window_handle == parent_window_handle)
  | none => false

/-! ## Claim theorems: registry and editor -/

/-- C1: for every proxy `p` with a fresh instance id, registering `p` and
then looking up `p`'s id returns `p` with its lock guard, and after
unregistering `p` a lookup of `p`'s id returns empty; for every prior
registry state in which `p`'s id is unused. -/
theorem c1_register_lookup_unregister (proxies : ProxyRegistry)
    (p : Vst3PluginProxy) (hfresh : lookup_id proxies p.instance_id = none) :
    get_proxy (register_plugin_proxy proxies p) p.instance_id =
      some (p, ⟨⟩) ∧
    get_proxy
      (unregister_plugin_proxy (register_plugin_proxy proxies p) p)
      p.instance_id = none := by
  constructor
  · simp [get_proxy, register_plugin_proxy, lookup_id]
  · simp [get_proxy, unregister_plugin_proxy, lookup_id_filter_out]

/-- Witness for C1 at a concrete fresh registration. -/
theorem c1_register_lookup_unregister_witness :
    get_proxy (register_plugin_proxy [(1, ⟨1, 10⟩)] ⟨2, 20⟩) 2 =
      some (⟨2, 20⟩, ⟨⟩) ∧
    get_proxy
      (unregister_plugin_proxy (register_plugin_proxy [(1, ⟨1, 10⟩)] ⟨2, 20⟩)
        ⟨2, 20⟩) 2 = none :=
  c1_register_lookup_unregister [(1, ⟨1, 10⟩)] ⟨2, 20⟩ (by decide)

/-- C2: for every instance id not currently registered, a registry lookup
returns empty rather than failing, and a callback naming such an unknown id
is answered with the benign default and never propagates an error; for every
registry state. -/
theorem c2_unknown_id_benign (proxies : ProxyRegistry) (instance_id : Nat)
    (handler : Vst3PluginProxy → Nat) (default_response : Nat)
    (hunknown : lookup_id proxies instance_id = none) :
    get_proxy proxies instance_id = none ∧
    handle_host_callback proxies instance_id handler default_response =
      default_response := by
  refine ⟨?_, ?_⟩
  · simp [get_proxy, hunknown]
  · simp [handle_host_callback, get_proxy, hunknown]

/-- Witness for C2 at a concrete unknown id over a nonempty registry. -/
theorem c2_unknown_id_benign_witness :
    get_proxy [(1, ⟨1, 10⟩)] 7 = none ∧
    handle_host_callback [(1, ⟨1, 10⟩)] 7 (fun p => p.host_context) 0 = 0 :=
  c2_unknown_id_benign [(1, ⟨1, 10⟩)] 7 (fun p => p.host_context) 0
    (by decide)

/-- C10: for every `Editor` with no currently open window,
`resize`/`embed_into` return false; they can return true only when a window
is open, a window is open exactly after `open()` and before `close()`. -/
theorem c10_editor_requires_open_window (e : Editor) (new_size : VstRect)
    (parent_window_handle : Nat) (move_window_ok reparent_ok : Bool)
    (hclosed : e.win32_handle = none) :
    e.resize new_size move_window_ok = false ∧
    e.embed_into parent_window_handle reparent_ok = false ∧
    (∀ f : Editor, f.resize new_size move_window_ok = true →
      f.win32_handle ≠ none) ∧
    (∀ f : Editor, f.embed_into parent_window_handle reparent_ok = true →
      f.win32_handle ≠ none) ∧
    (∀ new_hwnd : Nat,
      (e.open_window new_hwnd).1.win32_handle = some new_hwnd) ∧
    (∀ f : Editor, (Editor.close f).win32_handle = none) := by
  refine ⟨?_, ?_, ?_, ?_, ?_, ?_⟩
  · simp [Editor.resize, hclosed]
  · simp [Editor.embed_into, hclosed]
  · intro f hres hnone
    simp [Editor.resize, hnone] at hres
  · intro f hemb hnone
    simp [Editor.embed_into, hnone] at hemb
  · intro new_hwnd
    rfl
  · intro f
    rfl

/-- Witness for C10 at a concrete editor with no open window. -/
theorem c10_editor_requires_open_window_witness :
    Editor.resize ⟨3, none⟩ ⟨0, 0, 100, 200⟩ true = false ∧
    Editor.embed_into ⟨3, none⟩ 99 true = false ∧
    (∀ f : Editor, f.resize ⟨0, 0, 100, 200⟩ true = true →
      f.win32_handle ≠ none) ∧
    (∀ f : Editor, f.embed_into 99 true = true → f.win32_handle ≠ none) ∧
    (∀ new_hwnd : Nat,
      (Editor.open_window ⟨3, none⟩ new_hwnd).1.win32_handle =
        some new_hwnd) ∧
    (∀ f : Editor, (Editor.close f).win32_handle = none) :=
  c10_editor_requires_open_window ⟨3, none⟩ ⟨0, 0, 100, 200⟩ 99 true true rfl

/-! ## Mutual recursion coordinator (`MutualRecursionHelper`, `mutual_recursion_`) -/

/-- Modelled from the spec: `common/mutual-recursion.h` is not under `src/`.
The coordinator's fork state is the stack of active fork frames, most recent
first; each entry is the id of the thread that entered `fork`. A thread's
nesting depth is its number of frames: the spec's single per-thread
RecursionFork record with its nesting layers. -/
abbrev ForkStack := List Nat

/-- The nesting depth of thread `t`'s RecursionFork record: zero when `t` has
no active fork. -/
def fork_depth (st : ForkStack) (t : Nat) : Nat :=
  st.count t

/-- Installing a fork record tagged with the calling thread `t` (the entry
side of `fork`). -/
def push_fork (st : ForkStack) (t : Nat) : ForkStack :=
  t :: st

/-- Removing thread `t`'s most recent fork record (the exit side of `fork`,
run on every exit path). -/
def pop_fork (st : ForkStack) (t : Nat) : ForkStack :=
  st.erase t

/-- Modelled from the spec: `MutualRecursionHelper::fork(body)`, whose body
is in `common/mutual-recursion.h`, not under `src/`. Called by thread `t`
about to make a blocking outbound call: installs a fork record tagged with
`t`, runs `body` (which may raise, returning `Except.error`, and may itself
re-enter `fork`), and removes the record afterwards on both exit paths. -/
def MutualRecursionHelper.fork (st : ForkStack) (t : Nat)
    (body : ForkStack → Except Nat Nat × ForkStack) :
    Except Nat Nat × ForkStack :=
  let r := body (push_fork st t)
  (r.1, pop_fork r.2 t)

/-- Modelled from the spec: `MutualRecursionHelper::maybe_handle(fn)`, whose
body is in `common/mutual-recursion.h`, not under `src/`. If no fork is
active it returns "not handled" without running `fn` (second component: the
log of threads that executed `fn`, empty here); if a fork is active it hands
`fn` to the most recently forked thread, which executes it, and returns the
result. -/
def MutualRecursionHelper.maybe_handle (st : ForkStack) (fn : Unit → Nat) :
    Option Nat × List Nat :=
  match st with
  | [] => (none, [])
  | t :: _ => (some (fn ()), [t])

/-- Modelled from the spec: the deadlock-freedom scenario state for
`send_mutually_recursive_message` / `maybe_run_on_mutual_recursion_thread`
(thread A below is thread id 0, the thread inside `fork`). `a_blocked` is
true while A waits inside its outbound blocking call; `handoff_pending` is
true once thread B has submitted `fn` through `maybe_handle`;
`handoff_result`/`handoff_ran_on` record `fn`'s result and the thread that
executed it; `companion_done` is true once the companion, unblocked by `fn`'s
result, has produced A's response; `a_result`/`b_result` are the values the
two calls finally return. -/
structure MrScenario where
  a_blocked : Bool
  a_result : Option Nat
  handoff_pending : Bool
  handoff_result : Option Nat
  handoff_ran_on : Option Nat
  companion_done : Bool
  b_result : Option Nat
  deriving DecidableEq

/-- The scenario's initial state: thread A is blocked inside
`fork(body)` and thread B has just called `maybe_handle fn`. -/
def mr_scenario_init : MrScenario :=
  ⟨true, none, true, none, none, false, none⟩

/-- Modelled from the spec: one scheduler step of the scenario. In priority
order: the blocked thread A services the pending handoff by executing `fn`
synchronously; the companion, unblocked by `fn`'s result, produces A's
response `resp`; A's wait loop sees its own response and `fork` returns;
`maybe_handle` returns `fn`'s result to B. -/
def mr_step (fn : Unit → Nat) (resp : Nat) (s : MrScenario) : MrScenario :=
  if s.a_blocked && s.handoff_pending && s.handoff_result.isNone then
    { s with handoff_pending := false, handoff_result := some (fn ()),
             handoff_ran_on := some 0 }
  else if s.handoff_result.isSome && !s.companion_done then
    { s with companion_done := true }
  else if s.companion_done && s.a_blocked then
    { s with a_blocked := false, a_result := some resp }
  else if !s.a_blocked && s.b_result.isNone && s.handoff_result.isSome then
    { s with b_result := s.handoff_result }
  else s

/-- Four scheduler steps of the scenario from its initial state. -/
def mr_run (fn : Unit → Nat) (resp : Nat) : MrScenario :=
  mr_step fn resp (mr_step fn resp (mr_step fn resp
    (mr_step fn resp mr_scenario_init)))

/-! ## Claim theorems: mutual recursion coordinator -/

/-- C3: a body run under `fork` on thread A that blocks until thread B's
`maybe_handle fn` result unblocks the companion completes without deadlock:
after four scheduler steps A holds its response, B holds `fn`'s result, `fn`
was executed on thread A (id 0) while A was still blocked, and the reached
state is quiescent. -/
theorem c3_mutual_recursion_no_deadlock (fn : Unit → Nat) (resp : Nat) :
    (mr_run fn resp).a_result = some resp ∧
    (mr_run fn resp).b_result = some (fn ()) ∧
    (mr_run fn resp).handoff_ran_on = some 0 ∧
    (mr_step fn resp mr_scenario_init).a_blocked = true ∧
    (mr_step fn resp mr_scenario_init).handoff_result = some (fn ()) ∧
    mr_step fn resp (mr_run fn resp) = mr_run fn resp :=
  ⟨rfl, rfl, rfl, rfl, rfl, rfl⟩

/-- C4: `maybe_handle fn` with no active fork returns "not handled" without
running `fn` (empty execution log), and with an active fork returns the value
`fn` produced, executed on the fork-owning thread. -/
theorem c4_maybe_handle_contract (st : ForkStack) (fn : Unit → Nat) :
    (st = [] → MutualRecursionHelper.maybe_handle st fn = (none, [])) ∧
    (∀ t rest, st = t :: rest →
      MutualRecursionHelper.maybe_handle st fn = (some (fn ()), [t])) := by
  constructor
  · intro h
    subst h
    rfl
  · intro t rest h
    subst h
    rfl

/-- Witness for C4: no active fork at the empty stack, an active fork owned
by thread 2. -/
theorem c4_maybe_handle_contract_witness :
    MutualRecursionHelper.maybe_handle [] (fun _ => 41) = (none, []) ∧
    MutualRecursionHelper.maybe_handle [2] (fun _ => 41) =
      (some 41, [2]) :=
  ⟨(c4_maybe_handle_contract [] (fun _ => 41)).1 rfl,
   (c4_maybe_handle_contract [2] (fun _ => 41)).2 2 [] rfl⟩

/-- C5: `fork` installs a record tagged with the calling thread before
running `body` (depth goes up by one, the new frame names the caller),
removes it on every exit path (`body` returning `Except.ok` or
`Except.error` alike, given `body` itself restores depths, as nested forks
do), leaves other threads' records untouched, and a re-entrant fork by the
owning thread is a deeper nesting layer (depth two), not an error: it still
returns the inner body's result. -/
theorem c5_fork_record_discipline (st : ForkStack) (t : Nat)
    (body : ForkStack → Except Nat Nat × ForkStack)
    (hbody : ∀ s u, ((body s).2).count u = s.count u) :
    fork_depth (push_fork st t) t = fork_depth st t + 1 ∧
    (push_fork st t).head? = some t ∧
    (∀ u, u ≠ t → fork_depth (push_fork st t) u = fork_depth st u) ∧
    (∀ u, fork_depth (MutualRecursionHelper.fork st t body).2 u =
      fork_depth st u) ∧
    fork_depth (push_fork (push_fork st t) t) t = fork_depth st t + 2 ∧
    (MutualRecursionHelper.fork st t
      (fun s => MutualRecursionHelper.fork s t body)).1 =
      (body (push_fork (push_fork st t) t)).1 := by
  refine ⟨?_, rfl, ?_, ?_, ?_, rfl⟩
  · simp [fork_depth, push_fork]
  · intro u hu
    simp [fork_depth, push_fork, List.count_cons, hu]
  · intro u
    by_cases hu : u = t
    · subst hu
      simp [fork_depth, MutualRecursionHelper.fork, pop_fork,
        List.count_erase_self, hbody, push_fork]
    · simp [fork_depth, MutualRecursionHelper.fork, pop_fork,
        List.count_erase_of_ne hu, hbody, push_fork, List.count_cons, hu]
  · simp [fork_depth, push_fork]

/-- Witness for C5 at a concrete stack, thread and body. -/
theorem c5_fork_record_discipline_witness :
    fork_depth (push_fork [1] 0) 0 = fork_depth [1] 0 + 1 ∧
    (push_fork [1] 0).head? = some 0 ∧
    (∀ u, u ≠ 0 → fork_depth (push_fork [1] 0) u = fork_depth [1] u) ∧
    (∀ u, fork_depth
      (MutualRecursionHelper.fork [1] 0 (fun s => (Except.ok 7, s))).2 u =
      fork_depth [1] u) ∧
    fork_depth (push_fork (push_fork [1] 0) 0) 0 = fork_depth [1] 0 + 2 ∧
    (MutualRecursionHelper.fork [1] 0
      (fun s => MutualRecursionHelper.fork s 0
        (fun s2 => (Except.ok 7, s2)))).1 =
      ((fun s2 => ((Except.ok 7 : Except Nat Nat), s2))
        (push_fork (push_fork [1] 0) 0)).1 :=
  c5_fork_record_discipline [1] 0 (fun s => (Except.ok 7, s))
    (fun s u => rfl)

/-! ## Factory proxy reference count (`plugin_factory_`, `get_plugin_factory`) -/

/-- A reference-count operation on the factory proxy: an increment by an
acquiring holder (as `get_plugin_factory` performs for every returned
factory handle) or a decrement by a releasing holder. -/
inductive RefOp where
  | inc : RefOp
  | dec : RefOp
  deriving DecidableEq

/-- Modelled from the spec: the factory proxy's reference-count state. The
implementation of the counted `IPtr`/`FUnknown` pair behind
`Vst3PluginFactoryProxyImpl` is not under `src/`; the spec states the proxy
is reference-counted and releases the remote factory exactly once, the
instant the count reaches zero. `count` is the current reference count
(an integer, so that a misuse driving it below zero is observable) and
`remote_releases` the number of remote release requests sent so far. -/
structure FactoryRc where
  count : Int
  remote_releases : Nat
  deriving DecidableEq

/-- Modelled from the spec: one reference-count operation. A decrement that
brings the count to zero triggers the remote release. -/
def rc_step (s : FactoryRc) : RefOp → FactoryRc
  | RefOp.inc => ⟨s.count + 1, s.remote_releases⟩
  | RefOp.dec =>
    ⟨s.count - 1,
      if s.count - 1 = 0 then s.remote_releases + 1 else s.remote_releases⟩

/-- Running a whole sequence of reference-count operations from the initial
state (count zero, no remote release sent). -/
def rc_run (ops : List RefOp) : FactoryRc :=
  ops.foldl rc_step ⟨0, 0⟩

/-- The number of increments in a sequence. -/
def incs : List RefOp → Nat
  | [] => 0
  | RefOp.inc :: rest => incs rest + 1
  | RefOp.dec :: rest => incs rest

/-- The number of decrements in a sequence. -/
def decs : List RefOp → Nat
  | [] => 0
  | RefOp.inc :: rest => decs rest
  | RefOp.dec :: rest => decs rest + 1

/-- Every operation is an increment or a decrement. -/
theorem incs_add_decs (ops : List RefOp) :
    incs ops + decs ops = ops.length := by
  induction ops with
  | nil => rfl
  | cons op rest ih => cases op <;> simp [incs, decs, ih] <;> omega

/-- The count after a run is the starting count plus increments minus
decrements. -/
theorem rc_foldl_count (ops : List RefOp) (s : FactoryRc) :
    (ops.foldl rc_step s).count =
      s.count + (incs ops : Int) - (decs ops : Int) := by
  induction ops generalizing s with
  | nil => simp [incs, decs]
  | cons op rest ih =>
    cases op with
    | inc =>
      simp only [List.foldl_cons, ih, rc_step, incs, decs]
      push_cast
      ring
    | dec =>
      simp only [List.foldl_cons, ih, rc_step, incs, decs]
      push_cast
      ring

/-- A run whose count stays positive after every nonempty prefix sends no
remote release. -/
theorem rc_foldl_releases_of_pos (ops : List RefOp) (s : FactoryRc)
    (hpos : ∀ k, k ≤ ops.length → 0 < k →
      0 < ((ops.take k).foldl rc_step s).count) :
    (ops.foldl rc_step s).remote_releases = s.remote_releases := by
  induction ops generalizing s with
  | nil => rfl
  | cons op rest ih =>
    have h1 : 0 < (rc_step s op).count := by
      have h := hpos 1 (by simp) (by omega)
      simpa using h
    have hstep : (rc_step s op).remote_releases = s.remote_releases := by
      cases op with
      | inc => rfl
      | dec =>
        have hne : ¬ (s.count - 1 = 0) := by
          simp only [rc_step] at h1
          omega
        simp [rc_step, hne]
    have hrest : ∀ k, k ≤ rest.length → 0 < k →
        0 < ((rest.take k).foldl rc_step (rc_step s op)).count := by
      intro k hk hk0
      have h := hpos (k + 1) (by simpa using Nat.succ_le_succ hk) (by omega)
      simpa [List.take_succ_cons] using h
    calc ((op :: rest).foldl rc_step s).remote_releases
        = (rest.foldl rc_step (rc_step s op)).remote_releases := rfl
      _ = (rc_step s op).remote_releases := ih (rc_step s op) hrest
      _ = s.remote_releases := hstep

/-! ## Claim theorems: factory reference count -/

/-- C6 counterexample: the balanced sequence inc, dec, inc, dec (N = 2,
two holders, the second acquiring only after the first fully released)
triggers the remote release twice, not exactly once, because the count
reaches zero twice; so the claim over every balanced sequence fails. -/
theorem c6_balanced_sequence_counterexample :
    incs [RefOp.inc, RefOp.dec, RefOp.inc, RefOp.dec] =
      decs [RefOp.inc, RefOp.dec, RefOp.inc, RefOp.dec] ∧
    0 < incs [RefOp.inc, RefOp.dec, RefOp.inc, RefOp.dec] ∧
    (rc_run [RefOp.inc, RefOp.dec, RefOp.inc, RefOp.dec]).remote_releases
      = 2 ∧
    ¬ (rc_run [RefOp.inc, RefOp.dec, RefOp.inc, RefOp.dec]).remote_releases
      = 1 := by
  decide

/-- C6 as amended: a balanced sequence of N increments and N decrements
(N ≥ 1) in which every nonempty proper prefix has strictly more increments
than decrements (no operation uses the proxy after its count has reached
zero) triggers the remote release exactly once, at the final decrement —
the one that brings the count to zero — and the count is never negative at
any point of the sequence. -/
theorem c6_release_exactly_once_amended (ops : List RefOp)
    (hbal : incs ops = decs ops) (hpos : 0 < incs ops)
    (hvalid : ∀ k, k < ops.length → 0 < k →
      decs (ops.take k) < incs (ops.take k)) :
    (rc_run ops).remote_releases = 1 ∧
    (rc_run ops).count = 0 ∧
    (∀ k, 0 ≤ (rc_run (ops.take k)).count) ∧
    (∀ k, k < ops.length → (rc_run (ops.take k)).remote_releases = 0) ∧
    ops.getLast? = some RefOp.dec := by
  have hlen : ops.length = incs ops + decs ops := (incs_add_decs ops).symm
  have hlen2 : 2 ≤ ops.length := by omega
  rcases List.eq_nil_or_concat ops with hnil | ⟨l, last, hcat⟩
  · subst hnil
    simp at hlen2
  rw [List.concat_eq_append] at hcat
  subst hcat
  have hlenl : 1 ≤ l.length := by
    simp at hlen2
    omega
  have htake : ∀ k, k ≤ l.length → (l ++ [last]).take k = l.take k :=
    fun k hk => List.take_append_of_le_length hk
  -- every nonempty prefix of `l` leaves the count positive
  have hl_pos : ∀ k, k ≤ l.length → 0 < k →
      0 < ((l.take k).foldl rc_step (⟨0, 0⟩ : FactoryRc)).count := by
    intro k hk hk0
    have hv := hvalid k (by simp; omega) hk0
    rw [htake k hk] at hv
    have hc := rc_foldl_count (l.take k) ⟨0, 0⟩
    rw [hc]
    simp only
    omega
  have hl_rel : (rc_run l).remote_releases = 0 :=
    rc_foldl_releases_of_pos l ⟨0, 0⟩ hl_pos
  have hl_count : 0 < (rc_run l).count := by
    have h := hl_pos l.length (Nat.le_refl _) (by omega)
    rwa [List.take_length] at h
  have hsplit : rc_run (l ++ [last]) = rc_step (rc_run l) last := by
    simp [rc_run, List.foldl_append]
  have htotal : (rc_run (l ++ [last])).count = 0 := by
    have hc := rc_foldl_count (l ++ [last]) ⟨0, 0⟩
    rw [rc_run, hc]
    simp only
    omega
  have hlast : last = RefOp.dec := by
    cases last with
    | inc =>
      rw [hsplit] at htotal
      simp only [rc_step] at htotal
      omega
    | dec => rfl
  subst hlast
  have hfinal_count : (rc_step (rc_run l) RefOp.dec).count =
      (rc_run l).count - 1 := rfl
  have hzero : (rc_run l).count - 1 = 0 := by
    rw [hsplit] at htotal
    simpa [rc_step] using htotal
  refine ⟨?_, ?_, ?_, ?_, ?_⟩
  · rw [hsplit]
    simp [rc_step, hzero, hl_rel]
  · exact htotal
  · intro k
    rcases Nat.lt_or_ge k ((l ++ [RefOp.dec]).length) with hk | hk
    · rcases Nat.eq_zero_or_pos k with hk0 | hk0
      · subst hk0
        simp [rc_run]
      · have hv := hvalid k hk hk0
        have hc := rc_foldl_count ((l ++ [RefOp.dec]).take k) ⟨0, 0⟩
        rw [rc_run, hc]
        simp only
        omega
    · have hk' : (l ++ [RefOp.dec]).length ≤ k := hk
      simp [List.take_of_length_le hk', htotal]
  · intro k hk
    rcases Nat.eq_zero_or_pos k with hk0 | hk0
    · subst hk0
      simp [rc_run]
    · have hk_le : k ≤ l.length := by
        simp at hk
        omega
      rw [htake k hk_le]
      have hl_pos' : ∀ j, j ≤ (l.take k).length → 0 < j →
          0 < (((l.take k).take j).foldl rc_step (⟨0, 0⟩ : FactoryRc)).count
          := by
        intro j hj hj0
        rw [List.take_take]
        have hjk : j ≤ k := by
          simp at hj
          omega
        rw [Nat.min_eq_left hjk]
        exact hl_pos j (by omega) hj0
      exact rc_foldl_releases_of_pos (l.take k) ⟨0, 0⟩ hl_pos'
  · exact List.getLast?_concat l

/-- Witness for C6's amended claim at the valid balanced sequence
inc, inc, dec, dec (N = 2). -/
theorem c6_release_exactly_once_witness :
    (incs [RefOp.inc, RefOp.inc, RefOp.dec, RefOp.dec] =
      decs [RefOp.inc, RefOp.inc, RefOp.dec, RefOp.dec]) ∧
    (0 < incs [RefOp.inc, RefOp.inc, RefOp.dec, RefOp.dec]) ∧
    ((rc_run [RefOp.inc, RefOp.inc, RefOp.dec, RefOp.dec]).remote_releases
      = 1 ∧
     (rc_run [RefOp.inc, RefOp.inc, RefOp.dec, RefOp.dec]).count = 0 ∧
     (∀ k, 0 ≤
       (rc_run ([RefOp.inc, RefOp.inc, RefOp.dec, RefOp.dec].take k)).count) ∧
     (∀ k, k < ([RefOp.inc, RefOp.inc, RefOp.dec, RefOp.dec] :
        List RefOp).length →
       (rc_run ([RefOp.inc, RefOp.inc, RefOp.dec, RefOp.dec].take
         k)).remote_releases = 0) ∧
     ([RefOp.inc, RefOp.inc, RefOp.dec, RefOp.dec] :
       List RefOp).getLast? = some RefOp.dec) :=
  ⟨by decide, by decide,
   c6_release_exactly_once_amended
     [RefOp.inc, RefOp.inc, RefOp.dec, RefOp.dec]
     (by decide) (by decide) (by decide)⟩

/-! ## CLAP host descriptor serialization (`clap::host::Host`)

The `serialize` body in `src/common/serialization/clap/host.h` is real
source: `s.object(clap_version)`, then `s.text1b(name, 4096)`, the two
optionals through `bitsery::ext::InPlaceOptional` with `text1b(v, 4096)`,
then `s.text1b(version, 4096)`. Bytes are embedded as `Nat` values; the
writers truncate to a byte exactly where the C++ byte stream does. -/

/-- A 32-bit little-endian value as four bytes (bitsery `value4b`, used for
each `clap_version_t` field). -/
def write_u32 (v : Nat) : List Nat :=
  [v % 256, v / 256 % 256, v / 65536 % 256, v / 16777216 % 256]

/-- Reading a 32-bit little-endian value; fails on a short stream. -/
def read_u32 : List Nat → Option (Nat × List Nat)
  | b0 :: b1 :: b2 :: b3 :: rest =>
    some (b0 + 256 * b1 + 65536 * b2 + 16777216 * b3, rest)
  | _ => none

/-- bitsery's variable-length container size: one byte below `0x80`, two
bytes below `0x4000` (high byte or-ed with `0x80`, equal to adding 128 since
the high part is below 64), otherwise four bytes (first or-ed with `0xC0`,
then the mid byte, then the low 16 bits little-endian). -/
def write_size (n : Nat) : List Nat :=
  if n < 128 then [n]
  else if n < 16384 then [n / 256 + 128, n % 256]
  else [n / 16777216 + 192, n / 65536 % 256, n % 256, n / 256 % 256]

/-- bitsery's size reader: the first byte's top bits select the form. -/
def read_size : List Nat → Option (Nat × List Nat)
  | [] => none
  | hb :: rest =>
    if hb < 128 then some (hb, rest)
    else if hb < 192 then
      match rest with
      | lb :: rest2 => some ((hb - 128) * 256 + lb, rest2)
      | [] => none
    else
      match rest with
      | lb :: b2 :: b3 :: rest2 =>
        some ((hb - 192) * 16777216 + lb * 65536 + b2 + 256 * b3, rest2)
      | _ => none

/-- Reading exactly `n` raw bytes; fails on a short stream. -/
def read_bytes (n : Nat) (bytes : List Nat) : Option (List Nat × List Nat) :=
  if n ≤ bytes.length then some (bytes.take n, bytes.drop n) else none

/-- bitsery `text1b(s, max_size)` writing: the size, then one byte per
character (no terminator). -/
def write_text1b (s : List Nat) : List Nat :=
  write_size s.length ++ s.map (fun b => b % 256)

/-- bitsery `text1b` reading: the size (rejected above `max_size`), then that
many bytes. -/
def read_text1b (max_size : Nat) (bytes : List Nat) :
    Option (List Nat × List Nat) :=
  match read_size bytes with
  | none => none
  | some (n, rest) => if n ≤ max_size then read_bytes n rest else none

/-- Modelled from the spec: `bitsery::ext::InPlaceOptional`
(`common/bitsery/ext/in-place-optional.h`, not under `src/`) writes a
one-byte presence flag, then the value only when present — an absent field
encodes only the flag. -/
def write_opt_text (s : Option (List Nat)) : List Nat :=
  match s with
  | none => [0]
  | some v => 1 :: write_text1b v

/-- Reading an optional `text1b` field: flag byte 0 is an absent value (not
an empty string), flag byte 1 is a present value; anything else is a
malformed stream. -/
def read_opt_text (max_size : Nat) (bytes : List Nat) :
    Option (Option (List Nat) × List Nat) :=
  match bytes with
  | [] => none
  | flag :: rest =>
    if flag = 0 then some (none, rest)
    else if flag = 1 then
      match read_text1b max_size rest with
      | none => none
      | some (v, rest2) => some (some v, rest2)
    else none

/-- `clap_version_t`: major, minor, revision, each a `uint32_t`. -/
structure ClapVersion where
  major : Nat
  minor : Nat
  revision : Nat
  deriving DecidableEq

/-- `clap::host::Host`: the serializable fields of `clap_host_t` — the
negotiated CLAP version, the name, the optional vendor and url, and the
version string, each string capped at 4096 bytes by the schema. Strings are
byte lists. -/
structure Host where
  clap_version : ClapVersion
  name : List Nat
  vendor : Option (List Nat)
  url : Option (List Nat)
  version : List Nat
  deriving DecidableEq

/-- `clap::host::Host::serialize`, embedded from the source: the
`clap_version` fields (`s.object`), `text1b(name, 4096)`, the vendor and url
through `InPlaceOptional` + `text1b(v, 4096)`, then `text1b(version, 4096)`. -/
def Host.serialize (h : Host) : List Nat :=
  write_u32 h.clap_version.major ++ write_u32 h.clap_version.minor ++
    write_u32 h.clap_version.revision ++ write_text1b h.name ++
    write_opt_text h.vendor ++ write_opt_text h.url ++
    write_text1b h.version

/-- The Wine-side deserialization of a `clap::host::Host`: the same schema
read back field by field, failing on malformed or truncated streams. -/
def Host.deserialize (bytes : List Nat) : Option (Host × List Nat) :=
  match read_u32 bytes with
  | none => none
  | some (major, r1) =>
    match read_u32 r1 with
    | none => none
    | some (minor, r2) =>
      match read_u32 r2 with
      | none => none
      | some (revision, r3) =>
        match read_text1b 4096 r3 with
        | none => none
        | some (name, r4) =>
          match read_opt_text 4096 r4 with
          | none => none
          | some (vendor, r5) =>
            match read_opt_text 4096 r5 with
            | none => none
            | some (url, r6) =>
              match read_text1b 4096 r6 with
              | none => none
              | some (version, r7) =>
                some (⟨⟨major, minor, revision⟩, name, vendor, url,
                  version⟩, r7)

/-- A string field of the schema: at most 4096 bytes, every element an
actual byte. -/
def bytes_wf (s : List Nat) : Prop :=
  s.length ≤ 4096 ∧ ∀ b ∈ s, b < 256

instance (s : List Nat) : Decidable (bytes_wf s) := by
  unfold bytes_wf
  exact inferInstance

/-- An optional string field: well-formed when present. -/
def opt_bytes_wf (o : Option (List Nat)) : Prop :=
  ∀ v ∈ o.toList, bytes_wf v

instance (o : Option (List Nat)) : Decidable (opt_bytes_wf o) := by
  unfold opt_bytes_wf
  exact inferInstance

/-- A well-formed host descriptor: 32-bit version fields and well-formed
string fields. -/
def host_wf (h : Host) : Prop :=
  h.clap_version.major < 4294967296 ∧ h.clap_version.minor < 4294967296 ∧
    h.clap_version.revision < 4294967296 ∧ bytes_wf h.name ∧
    opt_bytes_wf h.vendor ∧ opt_bytes_wf h.url ∧ bytes_wf h.version

instance (h : Host) : Decidable (host_wf h) := by
  unfold host_wf
  exact inferInstance

/-- Byte-wise truncation is the identity on actual bytes. -/
theorem map_mod_self (s : List Nat) (hbytes : ∀ b ∈ s, b < 256) :
    s.map (fun b => b % 256) = s := by
  induction s with
  | nil => rfl
  | cons b rest ih =>
    have hb : b < 256 := hbytes b (by simp)
    have hrest : ∀ x ∈ rest, x < 256 := fun x hx => hbytes x (by simp [hx])
    simp [Nat.mod_eq_of_lt hb, ih hrest]

/-- Reading back a written 32-bit value recovers it, leaving the tail. -/
theorem read_u32_write (v : Nat) (rest : List Nat) (hv : v < 4294967296) :
    read_u32 (write_u32 v ++ rest) = some (v, rest) := by
  simp only [write_u32, List.cons_append, List.nil_append, read_u32,
    Option.some.injEq, Prod.mk.injEq]
  exact ⟨by omega, trivial⟩

/-- Reading back a written size below `0x4000` recovers it, leaving the
tail (the schema's strings need only the one- and two-byte forms). -/
theorem read_size_write (n : Nat) (rest : List Nat) (hn : n < 16384) :
    read_size (write_size n ++ rest) = some (n, rest) := by
  by_cases h1 : n < 128
  · simp [write_size, h1, read_size]
  · have hhb : ¬ (n / 256 + 128 < 128) := by omega
    have hhb2 : n / 256 + 128 < 192 := by omega
    simp only [write_size, if_neg h1, if_pos hn, List.cons_append,
      List.nil_append, read_size, if_neg hhb, if_pos hhb2,
      Option.some.injEq, Prod.mk.injEq]
    exact ⟨by omega, trivial⟩

/-- Reading exactly the bytes just written recovers them, leaving the
tail. -/
theorem read_bytes_exact (l rest : List Nat) :
    read_bytes l.length (l ++ rest) = some (l, rest) := by
  have hle : l.length ≤ (l ++ rest).length := by simp
  simp [read_bytes, hle, List.take_left, List.drop_left]

/-- Reading back a written `text1b` string of at most 4096 bytes recovers it
byte-identically, leaving the tail. -/
theorem read_text1b_write (s rest : List Nat) (hwf : bytes_wf s) :
    read_text1b 4096 (write_text1b s ++ rest) = some (s, rest) := by
  obtain ⟨hlen, hbytes⟩ := hwf
  have hsize : s.length < 16384 := by omega
  have hmap : s.map (fun b => b % 256) = s := map_mod_self s hbytes
  have hread : read_bytes s.length (s.map (fun b => b % 256) ++ rest) =
      some (s, rest) := by
    rw [hmap]
    exact read_bytes_exact s rest
  simp [read_text1b, write_text1b, List.append_assoc,
    read_size_write s.length (s.map (fun b => b % 256) ++ rest) hsize,
    hlen, hread]

/-- Reading back a written optional string field recovers it: a present
value byte-identically, an absent value as absent — not as an empty
string. -/
theorem read_opt_text_write (o : Option (List Nat)) (rest : List Nat)
    (hwf : opt_bytes_wf o) :
    read_opt_text 4096 (write_opt_text o ++ rest) = some (o, rest) := by
  cases o with
  | none => simp [write_opt_text, read_opt_text]
  | some v =>
    have hv : bytes_wf v := hwf v (by simp [Option.toList])
    simp [write_opt_text, read_opt_text, read_text1b_write v rest hv]

/-! ## Claim theorems: host descriptor serialization -/

/-- C7: serializing a well-formed `Host` (string fields at most 4096 bytes)
and deserializing yields byte-identical name, vendor, url and version fields
— in particular present vendor/url come back byte-identical and absent
vendor/url come back absent, not as empty strings — consuming the whole
stream. -/
theorem c7_host_roundtrip (h : Host) (hwf : host_wf h) :
    Host.deserialize (Host.serialize h) = some (h, []) := by
  obtain ⟨h1, h2, h3, hname, hvendor, hurl, hversion⟩ := hwf
  obtain ⟨⟨maj, mino, rev⟩, name, vendor, url, version⟩ := h
  have hv7 : read_text1b 4096 (write_text1b version) = some (version, []) :=
    by simpa using read_text1b_write version [] hversion
  simp only [Host.serialize, List.append_assoc]
  simp [Host.deserialize, read_u32_write _ _ h1, read_u32_write _ _ h2,
    read_u32_write _ _ h3, read_text1b_write _ _ hname,
    read_opt_text_write _ _ hvendor, read_opt_text_write _ _ hurl, hv7]

/-- Witness for C7: a host descriptor with vendor and url present, and one
with both absent. -/
theorem c7_host_roundtrip_witness :
    Host.deserialize (Host.serialize
      ⟨⟨1, 2, 3⟩, [89, 97], some [118, 100], some [104, 116], [53]⟩) =
      some (⟨⟨1, 2, 3⟩, [89, 97], some [118, 100], some [104, 116], [53]⟩,
        []) ∧
    Host.deserialize (Host.serialize ⟨⟨1, 2, 3⟩, [89, 97], none, none,
      [53]⟩) =
      some (⟨⟨1, 2, 3⟩, [89, 97], none, none, [53]⟩, []) :=
  ⟨c7_host_roundtrip
      ⟨⟨1, 2, 3⟩, [89, 97], some [118, 100], some [104, 116], [53]⟩
      (by decide),
   c7_host_roundtrip ⟨⟨1, 2, 3⟩, [89, 97], none, none, [53]⟩ (by decide)⟩

/-! ## Audio processor messages (`send_audio_processor_message`,
`receive_audio_processor_message_into`) -/

/-- The per-instance audio-processor sockets (`Vst3Sockets`): each request
sent on an instance's dedicated socket is answered by the Wine plugin host
with a serialized response. This function is the companion's
request-to-response-bytes behaviour for one instance. Bodies live in
`common/communication/vst3.h`, not under `src/`. -/
structure Vst3Sockets where
  process_request : Nat → List Nat

/-- Modelled from the spec: `send_audio_processor_message` (allocating
variant): send the request on the instance's dedicated socket and decode the
response into a freshly constructed response object; a malformed response is
a transport error (`none`). -/
def send_audio_processor_message (decode : List Nat → Option Nat)
    (sockets : Vst3Sockets) (request : Nat) : Option Nat :=
  decode (sockets.process_request request)

/-- Modelled from the spec: `receive_audio_processor_message_into`: the same
exchange, but the decoded response overwrites the caller-supplied
`response_object`, whose prior contents do not influence the result; the
overwritten object is returned. -/
def receive_audio_processor_message_into (decode : List Nat → Option Nat)
    (sockets : Vst3Sockets) (request : Nat) (response_object : Nat) :
    Option Nat :=
  match decode (sockets.process_request request) with
  | some r => some r
  | none => none

/-- C8: for every audio-processor request, the variant receiving the
response into a caller-supplied response object produces exactly the
response the allocating send variant returns, whatever the supplied object
previously held: the two embeddings are observationally equivalent. -/
theorem c8_receive_into_equals_send (decode : List Nat → Option Nat)
    (sockets : Vst3Sockets) (request : Nat) (response_object : Nat) :
    receive_audio_processor_message_into decode sockets request
      response_object =
      send_audio_processor_message decode sockets request := by
  unfold receive_audio_processor_message_into send_audio_processor_message
  cases hd : decode (sockets.process_request request) with
  | none => rfl
  | some r => rfl

/-! ## Bridge construction (`Vst3PluginBridge::Vst3PluginBridge`) -/

/-- The outcome of spawning the Wine plugin host companion process. -/
inductive SpawnResult where
  | spawned : Nat → SpawnResult
  | failed : SpawnResult
  deriving DecidableEq

/-- The outcome of the initial control-channel handshake within the bounded
startup window. -/
inductive HandshakeResult where
  | established : HandshakeResult
  | timed_out : HandshakeResult
  | refused : HandshakeResult
  deriving DecidableEq

/-- A fully constructed bridge: the companion process handle it owns. -/
structure BridgeHandle where
  host_process : Nat
  deriving DecidableEq

/-- Modelled from the spec: the body of `Vst3PluginBridge`'s constructor is
in `vst3.cpp`, not under `src/`; the header documents that construction
throws `std::runtime_error` when the Wine plugin host could not be found or
could not load the module, and the spec states that spawn or handshake
failure is a fatal construction error with no partial bridge returned. -/
def construct_bridge (spawn : SpawnResult) (handshake : HandshakeResult) :
    Except String BridgeHandle :=
  match spawn with
  | SpawnResult.failed =>
    Except.error "could not find or start the Wine plugin host"
  | SpawnResult.spawned hproc =>
    match handshake with
    | HandshakeResult.established => Except.ok ⟨hproc⟩
    | HandshakeResult.timed_out =>
      Except.error "timed out connecting to the Wine plugin host"
    | HandshakeResult.refused =>
      Except.error "could not connect to the Wine plugin host"

/-- C9: whenever the companion fails to spawn or the initial handshake does
not get established within the startup window, construction surfaces an
error (the host sees a module-load failure) and never returns a bridge
object, partial or otherwise. -/
theorem c9_construction_failure_no_bridge (spawn : SpawnResult)
    (handshake : HandshakeResult)
    (hfail : spawn = SpawnResult.failed ∨
      handshake ≠ HandshakeResult.established) :
    (∃ e, construct_bridge spawn handshake = Except.error e) ∧
    ∀ b, construct_bridge spawn handshake ≠ Except.ok b := by
  cases spawn with
  | failed =>
    exact ⟨⟨"could not find or start the Wine plugin host", rfl⟩,
      fun b hb => by simp [construct_bridge] at hb⟩
  | spawned hproc =>
    cases handshake with
    | established =>
      rcases hfail with hf | hf
      · exact absurd hf (by simp)
      · exact absurd rfl hf
    | timed_out =>
      exact ⟨⟨"timed out connecting to the Wine plugin host", rfl⟩,
        fun b hb => by simp [construct_bridge] at hb⟩
    | refused =>
      exact ⟨⟨"could not connect to the Wine plugin host", rfl⟩,
        fun b hb => by simp [construct_bridge] at hb⟩

/-- Witness for C9 at a concrete failed spawn. -/
theorem c9_construction_failure_no_bridge_witness :
    (∃ e, construct_bridge SpawnResult.failed HandshakeResult.established =
      Except.error e) ∧
    ∀ b, construct_bridge SpawnResult.failed HandshakeResult.established ≠
      Except.ok b :=
  c9_construction_failure_no_bridge SpawnResult.failed
    HandshakeResult.established (Or.inl rfl)
